import Mathlib

/-!
Verification development for the qudi instrument-control repository.

Each Python function named in the claims is shallowly embedded as a Lean
definition over exact arithmetic (machine floats are idealised as rationals,
Python ints as Nat/Int).  Stateful methods are embedded as explicit
state-passing functions.
-/

set_option maxRecDepth 8000

namespace Qudi

/-! ### Tektronix AWG7k (hardware/awg/tektronix_awg7k.py)

The channel-state dict `self._ch_state_dict` always carries exactly the six
generic channel keys `a_ch1, a_ch2, d_ch1 .. d_ch4`, each mapped to a Bool.
We embed such a dict as a structure with six Bool fields; the set of active
channels of a dict is then in bijection with the structure itself, so the
membership test `new_active_channels_set in constraints.activation_config.values()`
becomes a membership test in a list of nine `ChState` values. -/
namespace AWG7k

/-- A channel-state dict over the six generic channel names of the AWG7k. -/
structure ChState where
  a_ch1 : Bool
  a_ch2 : Bool
  d_ch1 : Bool
  d_ch2 : Bool
  d_ch3 : Bool
  d_ch4 : Bool
deriving DecidableEq, Repr

/-- A request dict passed to `set_active_channels`: each of the six channels is
either left unmentioned (`none`) or requested to a given Bool state. -/
structure ChRequest where
  a_ch1 : Option Bool
  a_ch2 : Option Bool
  d_ch1 : Option Bool
  d_ch2 : Option Bool
  d_ch3 : Option Bool
  d_ch4 : Option Bool

/-- The loop `for chnl in ch: new_ch_state_dict[chnl] = ch[chnl]` of
`set_active_channels`: the current dict overridden by the request. -/
def apply_request (cur : ChState) (ch : ChRequest) : ChState where
  a_ch1 := ch.a_ch1.getD cur.a_ch1
  a_ch2 := ch.a_ch2.getD cur.a_ch2
  d_ch1 := ch.d_ch1.getD cur.d_ch1
  d_ch2 := ch.d_ch2.getD cur.d_ch2
  d_ch3 := ch.d_ch3.getD cur.d_ch3
  d_ch4 := ch.d_ch4.getD cur.d_ch4

/-- The nine activation configurations built in `AWG7k.get_constraints`
(`constraints.activation_config.values()`), as active-channel sets encoded by
their indicator `ChState`.  In order: the empty config, `all`, `A1_M1_M2`,
`A2_M3_M4`, `Two_Analog`, `Analog1`, `Analog2`, `A1_M1_M2_A2`, `A1_A2_M3_M4`. -/
def activation_config : List ChState :=
  [ ⟨false, false, false, false, false, false⟩
  , ⟨true , true , true , true , true , true ⟩
  , ⟨true , false, true , true , false, false⟩
  , ⟨false, true , false, false, true , true ⟩
  , ⟨true , true , false, false, false, false⟩
  , ⟨true , false, false, false, false, false⟩
  , ⟨false, true , false, false, false, false⟩
  , ⟨true , true , true , true , false, false⟩
  , ⟨true , true , false, false, true , true ⟩ ]

/-- Embedding of `AWG7k.set_active_channels(ch)` for a non-None request dict
whose keys all lie among the six channels (so the `issuperset` guard passes).
Returns `(returned dict, new staged dict)`.  The accepted branch stores the
overridden dict and returns `get_active_channels()`, i.e. a copy of it; the
rejected branch leaves `self._ch_state_dict` untouched and returns the prior
state. -/
def set_active_channels (cur : ChState) (ch : ChRequest) : ChState × ChState :=
  let nw := apply_request cur ch
  if nw ∈ activation_config then (nw, nw) else (cur, cur)

/-- Waveform length minimum from `get_constraints` (`waveform_length.min = 1`). -/
def waveform_length_min : ℕ := 1

/-- Waveform length maximum from `get_constraints`: 64800000 with installed
option `01`, otherwise 32400000. -/
def waveform_length_max (opt01 : Bool) : ℕ :=
  if opt01 then 64800000 else 32400000

/-- The sanity-check prelude of `AWG7k.write_waveform`: an analog-sample dict
(embedded as an association list from channel names to sample arrays) and the
total number of samples are checked in source order; `some r` means the method
returns early with `r`, `none` means control proceeds past the sanity checks. -/
def write_waveform_sanity (analog_samples : List (List Char × List ℚ))
    (total_number_of_samples : ℕ) (opt01 : Bool) : Option (Int × List (List Char)) :=
  if analog_samples.length = 0 then some (-1, [])
  else if total_number_of_samples < waveform_length_min then some (-1, [])
  else if waveform_length_max opt01 < total_number_of_samples then some (-1, [])
  else none

end AWG7k

/-! ### Swabian Instruments gated counter
(hardware/swabian_instruments/si_time_tagger_gated_counter.py) -/
namespace GatedCounter

/-- Embedding of `SITimeTaggerGatedCounter._set_status(new_status)` acting on
the current `self._status`.  Result is `(returned code, new status)`; the
returned code is `none` for the implicit Python `None` fall-through on a
`new_status` outside `{-1, 0, 1, 2}`. -/
def set_status (status new_status : Int) : Option Int × Int :=
  if new_status = -1 then (some 0, -1)
  else if new_status = 0 then
    if status = -1 ∨ status = 1 then (some 0, 0) else (some (-1), status)
  else if new_status = 1 then
    if status = 0 ∨ status = 2 then (some 0, 1) else (some (-1), status)
  else if new_status = 2 then
    if status = 1 then (some 0, 2) else (some (-1), status)
  else (none, status)

/-- The transition table claimed for the gated-counter state machine:
`void(-1) → idle(0)`, `in_progress(1) → idle(0)`, `idle(0) → in_progress(1)`,
`finished(2) → in_progress(1)`, `in_progress(1) → finished(2)`, and
`any → void(-1)`. -/
def allowed_transition (status new_status : Int) : Prop :=
  new_status = -1 ∨
  (status = -1 ∧ new_status = 0) ∨ (status = 1 ∧ new_status = 0) ∨
  (status = 0 ∧ new_status = 1) ∨ (status = 2 ∧ new_status = 1) ∨
  (status = 1 ∧ new_status = 2)

instance (s n : Int) : Decidable (allowed_transition s n) := by
  unfold allowed_transition; infer_instance

/-- The polling loop of `SITimeTaggerGatedCounter.get_count_array(timeout)`:
`while self.get_status() == 1: if time.time()-start_time > timeout: break;
time.sleep(sleep_time)`.  `status n` is the value returned by the n-th
`get_status()` call and `elapsed n` the value of `time.time()-start_time` at
the n-th break check; `fuel` bounds the number of iterations we unfold, and
the result is the index of the poll at which the loop exits (or `none` when
the fuel runs out). -/
def wait_loop (timeout : ℚ) (status : ℕ → Int) (elapsed : ℕ → ℚ) :
    ℕ → ℕ → Option ℕ
  | 0, _ => none
  | fuel + 1, n =>
    if status n ≠ 1 then some n
    else if timeout < elapsed n then some n
    else wait_loop timeout status elapsed fuel (n + 1)

/-- Embedding of `get_count_array(timeout)`: run the polling loop, then call
`get_status()` once more (poll index `n + 1`); return the accumulated `data`
exactly when that final status is `2` (finished), and the empty list for every
other final status. -/
def get_count_array (timeout : ℚ) (status : ℕ → Int) (elapsed : ℕ → ℚ)
    (data : List ℕ) (fuel : ℕ) : Option (List ℕ) :=
  match wait_loop timeout status elapsed fuel 0 with
  | none => none
  | some n => if status (n + 1) = 2 then some data else some []

end GatedCounter

/-! ### M2 SolsTiS laser (hardware/laser/M2_laser.py) -/
namespace M2Laser

/-- The class attribute `M2Laser._terascan_rates`, in Hz/s. -/
def terascan_rates : List ℚ :=
  [ 50000, 100000, 200000, 500000, 1000000, 2000000, 5000000, 10000000
  , 20000000, 50000000, 100000000, 200000000, 500000000, 1000000000
  , 2000000000, 5000000000, 10000000000, 15000000000, 20000000000
  , 50000000000, 100000000000 ]

/-- The loop body of `_trunc_terascan_rate`: walk a list and return the first
entry `tr` with `rate >= tr`. -/
def trunc_from (rate : ℚ) : List ℚ → Option ℚ
  | [] => none
  | tr :: rest => if tr ≤ rate then some tr else trunc_from rate rest

/-- Embedding of `M2Laser._trunc_terascan_rate(rate)`: iterate over the ladder
in reverse and return the first entry below-or-equal the requested rate,
falling back to the first ladder entry (`self._terascan_rates[0] = 50e3`). -/
def trunc_terascan_rate (rate : ℚ) : ℚ :=
  (trunc_from rate terascan_rates.reverse).getD 50000

/-- Definition following the spec's words, for comparison: the largest ladder
member that is less than or equal to `rate`, and `50e3` when `rate` is below
every ladder member (folded maximum of the ladder members `≤ rate`, with
default `50e3`). -/
def spec_largest_rate_le (rate : ℚ) : ℚ :=
  (terascan_rates.filter (fun t => t ≤ rate)).foldr max 50000

/-- One step of the transmission-id update in `M2Laser._build_message` when no
explicit `transmission_id` is passed:
`self.transmission_id = self.transmission_id % 16383 + 1`.  The new state is
also the id placed into the outgoing message. -/
def next_transmission_id (s : ℕ) : ℕ := s % 16383 + 1

/-- Value of `self.transmission_id` after `k` calls of `_build_message` without
an explicit id, starting from the `on_activate` initial value
`self.transmission_id = 1`.  For `k ≥ 1` this is the id used by the k-th call. -/
def transmission_id_after : ℕ → ℕ
  | 0 => 1
  | k + 1 => next_transmission_id (transmission_id_after k)

end M2Laser

/-! ### M2 scanner wavemeter (hardware/m2scanner_wavemeter.py)

Python strings are embedded as `List Char`; the Python containment test
`kind in "air"` is the contiguous-substring (infix) relation, which also holds
for the empty string. -/
namespace M2ScannerWavemeter

/-- Embedding of `M2ScannerWavemeter.get_current_wavelength(kind)`;
`current` is the cached `self._current_wavelength` and `convert` the
vacuum-to-air conversion performed by `self._wavemeterdll.ConvertUnit`.
Mirrors the source tests `if kind in "air"` then `if kind in "vac"`, with
fall-through value `-2.0`. -/
def get_current_wavelength (kind : List Char) (current : ℚ) (convert : ℚ → ℚ) : ℚ :=
  if kind <:+: [ 'a', 'i', 'r' ] then convert current
  else if kind <:+: [ 'v', 'a', 'c' ] then current
  else -2

end M2ScannerWavemeter

/-! ### Confocal logic (logic/confocal_logic.py) -/
namespace Confocal

/-- Python `int()` applied to an exact value: truncation toward zero. -/
def py_int (q : ℚ) : ℤ := if 0 ≤ q then ⌊q⌋ else ⌈q⌉

/-- Embedding of the XY branch of `ConfocalLogic.initialize_image` (the
`self._zscan` false case), returning the pair (number of X samples, number of
Y samples) of the generated `np.linspace` grids, or `none` when the method
errors out with `-1` because `x2 < x1` or `y2 < y1`.  The source computes
`max(self.xy_resolution, 2)` samples on the long axis and
`max(int(self.xy_resolution * short/long), 2)` on the other. -/
def image_xy_samples (x1 x2 y1 y2 : ℚ) (xy_resolution : ℕ) : Option (ℕ × ℕ) :=
  if x2 < x1 then none
  else if y2 < y1 then none
  else if y2 - y1 ≤ x2 - x1 then
    some (max xy_resolution 2,
          max (py_int (xy_resolution * (y2 - y1) / (x2 - x1))).toNat 2)
  else
    some (max (py_int (xy_resolution * (x2 - x1) / (y2 - y1))).toNat 2,
          max xy_resolution 2)

end Confocal

/-! ### Lakeshore superconducting magnet (hardware/sc_magnet/lakeshore_magnet.py)

The serial layer is idealised by the exact rational value a message denotes.
`set_field` formats the gauss setting with the Python format `'{:.3e}'`, i.e.
scientific notation with three fractional mantissa digits (four significant
digits); we embed that format as ideal decimal rounding of an exact rational
(ties rounded half-up). -/
namespace Lakeshore

/-- Value denoted by `'{:.3e}'.format(q)` for an exact `q`: the mantissa
`|q| / 10 ^ (Int.log 10 |q|)` is rounded to three fractional digits and scaled
back; zero formats to zero. -/
def format_sci3 (q : ℚ) : ℚ :=
  if q = 0 then 0
  else
    let e : ℤ := Int.log 10 |q|
    let m : ℤ := round (|q| / (10 : ℚ) ^ e * 1000)
    (if q < 0 then -1 else 1) * ((m : ℚ) / 1000 * (10 : ℚ) ^ e)

/-- Embedding of `Magnet.set_field(i, f)`: the kilogauss argument is scaled by
`10**3` to gauss and written as `"SETF " + '{:.3e}'.format(f)`; the result is
the gauss value the written message denotes. -/
def set_field_written (f : ℚ) : ℚ := format_sci3 (f * 10 ^ (3 : ℕ))

/-- Embedding of `Magnet.get_field(i)`: the device reading (parsed by
`parse_reply` into its leading float) is scaled by `10**-3` back to kilogauss. -/
def get_field_from (raw : ℚ) : ℚ := raw * (10 : ℚ) ^ (-3 : ℤ)

/-- Round trip of the claim: `get_field` against a serial endpoint that echoes
back the setting written by the preceding `set_field`. -/
def field_roundtrip (f : ℚ) : ℚ := get_field_from (set_field_written f)

end Lakeshore

/-! ### M2 laser logic (logic/m2_laser_logic.py)

The 2 x N buffer `self.countdata` (row 0: wavelengths, row 1: counts) is
embedded as the list of its columns, i.e. pairs (wavelength, count); numpy's
`transpose` to and from column-major is then the identity on this view.
`order_data` computes `temp[temp[:, 0].argsort()]` with numpy's default
`kind='quicksort'` argsort, which numpy documents as unstable: the
repository's code fixes only that the result is a permutation of the columns
that is ascending in the wavelength key, not which permutation is produced
when wavelengths are tied.  `order_data` is therefore embedded as this
input/output relation, and properties are settled for every output the code
may produce. -/
namespace M2LaserLogic

/-- Input/output relation of `M2LaserLogic.order_data()`: the resulting buffer
is a permutation of the columns of `countdata` that is ascending in the
wavelength row.  Every run of the Python method satisfies this relation; on
tied wavelengths the unstable argsort leaves the choice of permutation
unspecified, so nothing finer is determined by the repository's code. -/
def order_data_spec (countdata result : List (ℚ × ℚ)) : Prop :=
  countdata.Perm result ∧ result.Pairwise (fun a b => a.1 ≤ b.1)

/-- A 17-column buffer with all wavelengths tied at 0 (as in the
zero-initialised `countdata`) and pairwise-distinct counts; its length is
above numpy quicksort's insertion-sort cutoff of 16, the regime in which the
unstable partition exchanges tied entries. -/
def tied_buffer : List (ℚ × ℚ) :=
  [ (0, 1), (0, 2), (0, 3), (0, 4), (0, 5), (0, 6), (0, 7), (0, 8), (0, 9)
  , (0, 10), (0, 11), (0, 12), (0, 13), (0, 14), (0, 15), (0, 16), (0, 17) ]

end M2LaserLogic

/-! ## Helper lemmas -/

theorem foldr_max_pull (l : List ℚ) (a d : ℚ) :
    l.foldr max (max a d) = max a (l.foldr max d) := by
  induction l with
  | nil => rfl
  | cons b l ih => simp only [List.foldr_cons, ih, max_left_comm]

theorem foldr_max_reverse (l : List ℚ) (d : ℚ) :
    l.reverse.foldr max d = l.foldr max d := by
  induction l with
  | nil => rfl
  | cons a l ih =>
    rw [List.reverse_cons, List.foldr_append, List.foldr_cons, List.foldr_nil,
      foldr_max_pull, ih]
    rfl

theorem foldr_max_le {l : List ℚ} {d b : ℚ} (hd : d ≤ b) (h : ∀ t ∈ l, t ≤ b) :
    l.foldr max d ≤ b := by
  induction l with
  | nil => exact hd
  | cons a l ih =>
    rw [List.foldr_cons]
    exact max_le (h a (List.mem_cons_self a l)) (ih fun t ht => h t (List.mem_cons_of_mem a ht))

theorem trunc_from_eq_foldr_max :
    ∀ (m : List ℚ) (x d : ℚ), m.Pairwise (fun a b => b ≤ a) → (∀ t ∈ m, d ≤ t) →
      (M2Laser.trunc_from x m).getD d = (m.filter (fun t => t ≤ x)).foldr max d := by
  intro m
  induction m with
  | nil => intro x d _ _; rfl
  | cons t ts ih =>
    intro x d hpair hd
    rw [List.pairwise_cons] at hpair
    by_cases h : t ≤ x
    · rw [M2Laser.trunc_from, if_pos h, List.filter_cons_of_pos (by simpa using h),
        List.foldr_cons, Option.getD_some]
      refine (max_eq_left ?_).symm
      refine foldr_max_le (hd t (List.mem_cons_self t ts)) ?_
      intro u hu
      exact hpair.1 u (List.mem_of_mem_filter hu)
    · rw [M2Laser.trunc_from, if_neg h, List.filter_cons_of_neg (by simpa using h)]
      exact ih x d hpair.2 fun u hu => hd u (List.mem_cons_of_mem t hu)

theorem terascan_rates_sorted : M2Laser.terascan_rates.Pairwise (fun a b => a ≤ b) := by
  unfold M2Laser.terascan_rates
  norm_num [List.pairwise_cons]

theorem terascan_rates_lower_bound : ∀ t ∈ M2Laser.terascan_rates, (50000 : ℚ) ≤ t := by
  unfold M2Laser.terascan_rates
  norm_num

theorem transmission_id_after_eq (k : ℕ) :
    M2Laser.transmission_id_after k = k % 16383 + 1 := by
  induction k with
  | zero => rfl
  | succ k ih =>
    rw [M2Laser.transmission_id_after, ih, M2Laser.next_transmission_id]
    omega

theorem int_log10_eq {q : ℚ} {e : ℤ} (h1 : (10 : ℚ) ^ e ≤ q) (h2 : q < (10 : ℚ) ^ (e + 1)) :
    Int.log 10 q = e := by
  have hq : 0 < q := lt_of_lt_of_le (zpow_pos (by norm_num) e) h1
  refine le_antisymm ?_ ?_
  · have := (Int.lt_zpow_iff_log_lt (b := 10) (by norm_num) hq).mp h2
    omega
  · exact (Int.zpow_le_iff_le_log (b := 10) (by norm_num) hq).mp h1

theorem format_sci3_error_bound {q : ℚ} (hq : 0 < q) :
    |Lakeshore.format_sci3 q - q| ≤ (10 : ℚ) ^ (Int.log 10 q) / 2000 := by
  have habs : |q| = q := abs_of_pos hq
  rw [Lakeshore.format_sci3, if_neg (ne_of_gt hq), if_neg (not_lt.mpr hq.le)]
  simp only [habs]
  set e : ℤ := Int.log 10 q with he
  set x : ℚ := q / (10 : ℚ) ^ e * 1000 with hx
  have hpow : (0 : ℚ) < (10 : ℚ) ^ e := zpow_pos (by norm_num) e
  have hkey : (1 : ℚ) * (((round x : ℤ) : ℚ) / 1000 * (10 : ℚ) ^ e) - q =
      (((round x : ℤ) : ℚ) - x) * ((10 : ℚ) ^ e / 1000) := by
    rw [hx]
    field_simp
    ring
  have hb : (0 : ℚ) < (10 : ℚ) ^ e / 1000 := by positivity
  rw [hkey, abs_mul, abs_of_pos hb]
  have hround : |((round x : ℤ) : ℚ) - x| ≤ 1 / 2 := by
    rw [abs_sub_comm]
    exact abs_sub_round x
  calc |((round x : ℤ) : ℚ) - x| * ((10 : ℚ) ^ e / 1000)
      ≤ (1 / 2) * ((10 : ℚ) ^ e / 1000) := by
        exact mul_le_mul_of_nonneg_right hround (by positivity)
    _ = (10 : ℚ) ^ e / 2000 := by ring

theorem format_sci3_pos_eval {q : ℚ} {e : ℤ} (hq : 0 < q)
    (h1 : (10 : ℚ) ^ e ≤ q) (h2 : q < (10 : ℚ) ^ (e + 1)) :
    Lakeshore.format_sci3 q =
      ((round (q / (10 : ℚ) ^ e * 1000) : ℤ) : ℚ) / 1000 * (10 : ℚ) ^ e := by
  rw [Lakeshore.format_sci3, if_neg (ne_of_gt hq), if_neg (not_lt.mpr hq.le),
    abs_of_pos hq, int_log10_eq h1 h2, one_mul]

/-! ## Claim theorems -/

/-- C1: for every channel-state request over the six channels,
`set_active_channels` either accepts — the staged dict becomes the overridden
dict, whose active-channel set is one of the nine activation configurations,
and that new state is returned — or rejects, leaving the staged dict unchanged
and returning the prior state; no third outcome exists. -/
theorem C1_set_active_channels_dichotomy :
    ∀ (cur : AWG7k.ChState) (ch : AWG7k.ChRequest),
      (AWG7k.set_active_channels cur ch =
          (AWG7k.apply_request cur ch, AWG7k.apply_request cur ch) ∧
        AWG7k.apply_request cur ch ∈ AWG7k.activation_config) ∨
      (AWG7k.set_active_channels cur ch = (cur, cur) ∧
        AWG7k.apply_request cur ch ∉ AWG7k.activation_config) := by
  intro cur ch
  by_cases h : AWG7k.apply_request cur ch ∈ AWG7k.activation_config
  · exact Or.inl ⟨by simp [AWG7k.set_active_channels, h], h⟩
  · exact Or.inr ⟨by simp [AWG7k.set_active_channels, h], h⟩

/-- C2: over the four states void(-1), idle(0), in_progress(1), finished(2),
a `_set_status` request succeeds (returns 0 and updates the state) exactly for
the transitions void→idle, in_progress→idle, idle→in_progress,
finished→in_progress, in_progress→finished and any→void; every other request
returns -1 and leaves the state unchanged. -/
theorem C2_set_status_transition_table :
    ∀ s n : Int, (s = -1 ∨ s = 0 ∨ s = 1 ∨ s = 2) → (n = -1 ∨ n = 0 ∨ n = 1 ∨ n = 2) →
      ((GatedCounter.set_status s n = (some 0, n)) ↔ GatedCounter.allowed_transition s n) ∧
      (¬ GatedCounter.allowed_transition s n →
        GatedCounter.set_status s n = (some (-1), s)) := by
  rintro s n (rfl | rfl | rfl | rfl) (rfl | rfl | rfl | rfl) <;>
    exact ⟨by decide, by decide⟩

/-- C2 witness: the direct idle→finished request fails with -1 and leaves the
state at idle. -/
theorem C2_set_status_witness : GatedCounter.set_status 0 2 = (some (-1), 0) :=
  (C2_set_status_transition_table 0 2 (Or.inr (Or.inl rfl))
    (Or.inr (Or.inr (Or.inr rfl)))).2 (by decide)

/-- C3: `_trunc_terascan_rate` returns the largest ladder member that is
less than or equal to the requested rate, with floor 50e3 when the rate is
below every member; in particular 7e9 ↦ 5e9, 1e3 ↦ 50e3, 100e9 ↦ 100e9 and
150e9 ↦ 100e9. -/
theorem C3_trunc_terascan_rate_correct :
    (∀ x : ℚ, M2Laser.trunc_terascan_rate x = M2Laser.spec_largest_rate_le x) ∧
    M2Laser.trunc_terascan_rate 7000000000 = 5000000000 ∧
    M2Laser.trunc_terascan_rate 1000 = 50000 ∧
    M2Laser.trunc_terascan_rate 100000000000 = 100000000000 ∧
    M2Laser.trunc_terascan_rate 150000000000 = 100000000000 := by
  refine ⟨fun x => ?_, by decide, by decide, by decide, by decide⟩
  rw [M2Laser.trunc_terascan_rate, M2Laser.spec_largest_rate_le,
    trunc_from_eq_foldr_max M2Laser.terascan_rates.reverse x 50000
      (List.pairwise_reverse.mpr terascan_rates_sorted)
      (fun t ht => terascan_rates_lower_bound t (List.mem_reverse.mp ht)),
    List.filter_reverse, foldr_max_reverse]

/-- C4: the claim (and the gated-counter interface documentation) says
`timeout = -1` removes the time limit so `get_count_array` waits unboundedly
while the status is in_progress; in the code the break test
`time.time() - start_time > timeout` is already true at the first poll, since
the elapsed time is nonnegative and hence greater than -1, so the call gives
up after a single status poll and returns the empty result even though the
counter is still running. -/
theorem C4_get_count_array_timeout_minus_one :
    ∀ (status : ℕ → Int) (elapsed : ℕ → ℚ) (data : List ℕ) (fuel : ℕ),
      0 ≤ elapsed 0 → status 1 = 1 → 1 ≤ fuel →
      GatedCounter.wait_loop (-1) status elapsed fuel 0 = some 0 ∧
      GatedCounter.get_count_array (-1) status elapsed data fuel = some [] := by
  intro status elapsed data fuel h0 h1 hfuel
  obtain ⟨m, rfl⟩ : ∃ m, fuel = m + 1 := ⟨fuel - 1, by omega⟩
  have hbreak : (-1 : ℚ) < elapsed 0 := lt_of_lt_of_le (by norm_num) h0
  have hloop : GatedCounter.wait_loop (-1) status elapsed (m + 1) 0 = some 0 := by
    by_cases hs : status 0 = 1
    · simp [GatedCounter.wait_loop, hs, hbreak]
    · simp [GatedCounter.wait_loop, hs]
  refine ⟨hloop, ?_⟩
  rw [GatedCounter.get_count_array, hloop]
  simp [h1]

/-- C4 witness: a counter permanently in_progress, polled with timeout -1,
returns the empty result after the very first poll. -/
theorem C4_get_count_array_witness :
    GatedCounter.wait_loop (-1) (fun _ => 1) (fun _ => 0) 1 0 = some 0 ∧
    GatedCounter.get_count_array (-1) (fun _ => 1) (fun _ => 0) [7] 1 = some [] :=
  C4_get_count_array_timeout_minus_one (fun _ => 1) (fun _ => 0) [7] 1
    (by norm_num) rfl (by norm_num)

/-- C5 counterexample: the claim says every string other than "vac" and "air"
yields the sentinel -2.0, but the source tests Python substring containment
(`kind in "air"`), so the single-character string "a" takes the air-conversion
branch and returns the converted value, not -2.0. -/
theorem C5_counterexample :
    M2ScannerWavemeter.get_current_wavelength [ 'a' ] 637 (fun x => x + 1) = 638 ∧
    (638 : ℚ) ≠ -2 := by
  constructor
  · rw [M2ScannerWavemeter.get_current_wavelength,
      if_pos (show [ 'a' ] <:+: [ 'a', 'i', 'r' ] from ⟨[], [ 'i', 'r' ], rfl⟩)]
    norm_num
  · norm_num

/-- C5 amended: `get_current_wavelength(kind)` returns the ConvertUnit air
conversion of the cached value when kind is a contiguous substring of "air"
(this includes "air" itself, the empty string and fragments such as "a"),
returns the raw cached value when kind is not a substring of "air" but is a
substring of "vac" (including "vac" itself), and returns the sentinel -2.0 for
every other string. -/
theorem C5_get_current_wavelength_substring :
    ∀ (kind : List Char) (current : ℚ) (convert : ℚ → ℚ),
      (kind <:+: [ 'a', 'i', 'r' ] →
        M2ScannerWavemeter.get_current_wavelength kind current convert = convert current) ∧
      (¬ kind <:+: [ 'a', 'i', 'r' ] → kind <:+: [ 'v', 'a', 'c' ] →
        M2ScannerWavemeter.get_current_wavelength kind current convert = current) ∧
      (¬ kind <:+: [ 'a', 'i', 'r' ] → ¬ kind <:+: [ 'v', 'a', 'c' ] →
        M2ScannerWavemeter.get_current_wavelength kind current convert = -2) := by
  intro kind current convert
  refine ⟨fun h => ?_, fun h1 h2 => ?_, fun h1 h2 => ?_⟩
  · rw [M2ScannerWavemeter.get_current_wavelength, if_pos h]
  · rw [M2ScannerWavemeter.get_current_wavelength, if_neg h1, if_pos h2]
  · rw [M2ScannerWavemeter.get_current_wavelength, if_neg h1, if_neg h2]

/-- C5 witness: the exact string "vac" returns the raw cached value. -/
theorem C5_get_current_wavelength_witness :
    M2ScannerWavemeter.get_current_wavelength [ 'v', 'a', 'c' ] 637 (fun x => x + 1) = 637 :=
  (C5_get_current_wavelength_substring [ 'v', 'a', 'c' ] 637 (fun x => x + 1)).2.1
    (by decide) (by decide)

/-- C6 counterexample: the claim says the short axis receives
`round(xy_resolution * short_range/long_range)` samples, but the source uses
Python `int(...)`, which truncates: for x-range 10, y-range 2.7 and
xy_resolution 10 the code produces 2 Y samples while the claimed rounding
formula gives 3. -/
theorem C6_counterexample :
    Confocal.image_xy_samples 0 10 0 (27 / 10) 10 = some (10, 2) ∧
    max ((round ((10 : ℚ) * ((27 / 10 : ℚ) - 0) / ((10 : ℚ) - 0))).toNat) 2 = 3 := by
  constructor
  · rw [Confocal.image_xy_samples, if_neg (by norm_num), if_neg (by norm_num),
      if_pos (by norm_num)]
    norm_num [Confocal.py_int]
    decide
  · rw [round_eq]
    norm_num
    decide

/-- C6 amended: for every XY image geometry with both ranges positive, the axis
spanning the larger physical range receives `max(xy_resolution, 2)` samples and
the other axis `max(int(xy_resolution * short_range/long_range), 2)` samples,
where `int` truncates (floor, for these nonnegative quotients) rather than
rounds; in particular x-range 10, y-range 4, xy_resolution 100 yields 100 X
and 40 Y samples. -/
theorem C6_image_xy_truncation :
    ∀ (x1 x2 y1 y2 : ℚ) (res : ℕ), x1 < x2 → y1 < y2 →
      (y2 - y1 ≤ x2 - x1 →
        Confocal.image_xy_samples x1 x2 y1 y2 res =
          some (max res 2, max (⌊(res : ℚ) * (y2 - y1) / (x2 - x1)⌋).toNat 2)) ∧
      (x2 - x1 < y2 - y1 →
        Confocal.image_xy_samples x1 x2 y1 y2 res =
          some (max (⌊(res : ℚ) * (x2 - x1) / (y2 - y1)⌋).toNat 2, max res 2)) ∧
      Confocal.image_xy_samples 0 10 0 4 100 = some (100, 40) := by
  intro x1 x2 y1 y2 res hx hy
  have hx0 : ¬ x2 < x1 := not_lt.mpr hx.le
  have hy0 : ¬ y2 < y1 := not_lt.mpr hy.le
  refine ⟨fun hle => ?_, fun hlt => ?_, ?_⟩
  · have hq : (0 : ℚ) ≤ (res : ℚ) * (y2 - y1) / (x2 - x1) := by
      apply div_nonneg
      · exact mul_nonneg (Nat.cast_nonneg res) (by linarith)
      · linarith
    rw [Confocal.image_xy_samples, if_neg hx0, if_neg hy0, if_pos hle,
      Confocal.py_int, if_pos hq]
  · have hq : (0 : ℚ) ≤ (res : ℚ) * (x2 - x1) / (y2 - y1) := by
      apply div_nonneg
      · exact mul_nonneg (Nat.cast_nonneg res) (by linarith)
      · linarith
    rw [Confocal.image_xy_samples, if_neg hx0, if_neg hy0, if_neg (not_le.mpr hlt),
      Confocal.py_int, if_pos hq]
  · rw [Confocal.image_xy_samples, if_neg (by norm_num), if_neg (by norm_num),
      if_pos (by norm_num)]
    norm_num [Confocal.py_int]
    decide

/-- C6 witness: the amended theorem instantiated at x-range 10, y-range 4 and
xy_resolution 100 gives 100 X samples and 40 Y samples. -/
theorem C6_image_xy_witness :
    Confocal.image_xy_samples 0 10 0 4 100 = some (100, 40) :=
  (C6_image_xy_truncation 0 10 0 4 100 (by norm_num) (by norm_num)).2.2

/-- C7 counterexample: `set_field` writes the gauss setting through the format
`'{:.3e}'`, which keeps only four significant digits, so for f = 1.23456 kG
the echoed reading parses back to 1.235 kG: the roundtrip does not return f to
floating-point tolerance (the deviation is 4.4e-4, far above 1e-6). -/
theorem C7_counterexample :
    Lakeshore.field_roundtrip (123456 / 100000) = 247 / 200 ∧
    ¬ |Lakeshore.field_roundtrip (123456 / 100000) - 123456 / 100000| ≤ 1 / 1000000 := by
  have hval : Lakeshore.field_roundtrip (123456 / 100000) = 247 / 200 := by
    rw [Lakeshore.field_roundtrip, Lakeshore.set_field_written,
      Lakeshore.get_field_from,
      show (123456 / 100000 : ℚ) * 10 ^ (3 : ℕ) = 123456 / 100 by norm_num,
      format_sci3_pos_eval (e := 3) (by norm_num)
        (by norm_num [show ((10:ℚ))^(3:ℤ) = 1000 from by norm_num])
        (by norm_num [show ((10:ℚ))^(3+1:ℤ) = 10000 from by norm_num]),
      show ((123456 : ℚ) / 100) / (10 : ℚ) ^ (3 : ℤ) * 1000 = 123456 / 100 by
        norm_num [show ((10:ℚ))^(3:ℤ) = 1000 from by norm_num],
      round_eq]
    norm_num [show ((10:ℚ))^(3:ℤ) = 1000 from by norm_num,
      show ((10:ℚ))^(-3:ℤ) = 1 / 1000 from by norm_num [zpow_neg]]
  refine ⟨hval, ?_⟩
  rw [hval, show (247 / 200 : ℚ) - 123456 / 100000 = 11 / 25000 by norm_num,
    abs_of_pos (show (0 : ℚ) < 11 / 25000 by norm_num)]
  norm_num

/-- C7 amended: `set_field` scales kilogauss by 1e3 and writes the result in
the `'{:.3e}'` format (four significant digits); `get_field` scales the echoed
reading back by 1e-3.  Hence the roundtrip through an echoing endpoint returns
the four-significant-digit rounding of 1000·f divided by 1000 — exact when
1000·f is representable at that precision (e.g. f = 2 kG), and in general off
by at most half a unit in the fourth significant digit of the gauss value,
i.e. at most 10^(log10(1000·f)) / 2e6. -/
theorem C7_field_roundtrip_four_digits :
    (∀ f : ℚ, Lakeshore.field_roundtrip f = Lakeshore.format_sci3 (f * 1000) / 1000) ∧
    (∀ f : ℚ, 0 < f →
      |Lakeshore.field_roundtrip f - f| ≤
        (10 : ℚ) ^ (Int.log 10 (f * 1000)) / 2000000) ∧
    Lakeshore.field_roundtrip 2 = 2 := by
  have hexpand : ∀ f : ℚ,
      Lakeshore.field_roundtrip f = Lakeshore.format_sci3 (f * 1000) / 1000 := by
    intro f
    rw [Lakeshore.field_roundtrip, Lakeshore.set_field_written, Lakeshore.get_field_from,
      show ((10:ℚ))^(3:ℕ) = 1000 from by norm_num,
      show ((10:ℚ))^(-3:ℤ) = 1 / 1000 from by norm_num [zpow_neg]]
    ring
  refine ⟨hexpand, fun f hf => ?_, ?_⟩
  · have hq : (0 : ℚ) < f * 1000 := by positivity
    have hbound := format_sci3_error_bound hq
    have hdiff : Lakeshore.field_roundtrip f - f =
        (Lakeshore.format_sci3 (f * 1000) - f * 1000) / 1000 := by
      rw [hexpand f]
      ring
    rw [hdiff, abs_div, abs_of_pos (show (0:ℚ) < 1000 by norm_num)]
    calc |Lakeshore.format_sci3 (f * 1000) - f * 1000| / 1000
        ≤ ((10 : ℚ) ^ (Int.log 10 (f * 1000)) / 2000) / 1000 :=
          (div_le_div_iff_of_pos_right (show (0 : ℚ) < 1000 by norm_num)).mpr hbound
      _ = (10 : ℚ) ^ (Int.log 10 (f * 1000)) / 2000000 := by ring
  · rw [hexpand 2,
      show ((2:ℚ)) * 1000 = 2000 from by norm_num,
      format_sci3_pos_eval (e := 3) (by norm_num)
        (by norm_num [show ((10:ℚ))^(3:ℤ) = 1000 from by norm_num])
        (by norm_num [show ((10:ℚ))^(3+1:ℤ) = 10000 from by norm_num]),
      show ((2000 : ℚ)) / (10 : ℚ) ^ (3 : ℤ) * 1000 = ((2000 : ℤ) : ℚ) by
        norm_num [show ((10:ℚ))^(3:ℤ) = 1000 from by norm_num],
      round_intCast]
    norm_num [show ((10:ℚ))^(3:ℤ) = 1000 from by norm_num]

/-- C7 witness: the error bound of the amended theorem instantiated at the
exactly-representable field value f = 2 kG. -/
theorem C7_field_roundtrip_witness :
    |Lakeshore.field_roundtrip 2 - 2| ≤
      (10 : ℚ) ^ (Int.log 10 ((2 : ℚ) * 1000)) / 2000000 :=
  C7_field_roundtrip_four_digits.2.1 2 (by norm_num)

/-- C8 counterexample: the claim reads the update as producing the ordered
sequence 1, 2, ..., 16383 over the first 16383 calls with the 16384th call
wrapping to 1; in the code the state is advanced before being used, so the
first call from the initial id 1 already produces 2, and the 16384th call
produces 2, not 1. -/
theorem C8_counterexample :
    M2Laser.transmission_id_after 1 = 2 ∧ M2Laser.transmission_id_after 16384 = 2 := by
  constructor
  · rfl
  · rw [transmission_id_after_eq]

/-- C8 amended: starting from transmission id 1, the k-th `_build_message`
call without an explicit id produces id (k mod 16383) + 1: the produced ids
run 2, 3, ..., 16383, then 1, then 2, ... — each id lies in 1..16383 (never 0,
never above 16383), the sequence has period 16383 (so any 16383 consecutive
calls produce each id of 1..16383 exactly once), and the call right after one
that produced 16383 wraps around to 1. -/
theorem C8_transmission_id_cycle :
    ∀ k : ℕ,
      M2Laser.transmission_id_after (k + 1) = (k + 1) % 16383 + 1 ∧
      1 ≤ M2Laser.transmission_id_after (k + 1) ∧
      M2Laser.transmission_id_after (k + 1) ≤ 16383 ∧
      M2Laser.transmission_id_after (k + 1) ≠ 0 ∧
      M2Laser.transmission_id_after (k + 1 + 16383) = M2Laser.transmission_id_after (k + 1) ∧
      (M2Laser.transmission_id_after (k + 1) = 16383 →
        M2Laser.transmission_id_after (k + 2) = 1) := by
  intro k
  rw [transmission_id_after_eq, transmission_id_after_eq, transmission_id_after_eq]
  omega

/-- C8 witness: call 16382 produces id 16383, and the following call (the
16383rd) wraps around to id 1. -/
theorem C8_transmission_id_witness : M2Laser.transmission_id_after 16383 = 1 := by
  have h := C8_transmission_id_cycle 16381
  have h1 : M2Laser.transmission_id_after (16381 + 1) = 16383 := by
    rw [h.1]
  have h2 := h.2.2.2.2.2 h1
  exact h2

/-- Helper for C9: a wavelength-sorted permutation of a wavelength-sorted
buffer with pairwise-distinct wavelengths is that buffer itself (on distinct
keys the weak key order is strict, and strictly-sorted permutations of each
other coincide). -/
theorem sorted_perm_eq_of_distinct_keys {l r : List (ℚ × ℚ)}
    (hdist : l.Pairwise (fun a b => a.1 ≠ b.1)) (hperm : l.Perm r)
    (hl : l.Pairwise (fun a b => a.1 ≤ b.1))
    (hr : r.Pairwise (fun a b => a.1 ≤ b.1)) : r = l := by
  haveI : IsAntisymm (ℚ × ℚ) (fun a b => a.1 < b.1) :=
    ⟨fun a b h1 h2 => absurd (lt_trans h1 h2) (lt_irrefl a.1)⟩
  have hdist_r : r.Pairwise (fun a b => a.1 ≠ b.1) :=
    (List.Perm.pairwise_iff (fun h => Ne.symm h) hperm).mp hdist
  have hlt_l : l.Pairwise (fun a b => a.1 < b.1) :=
    (hl.and hdist).imp fun h => lt_of_le_of_ne h.1 h.2
  have hlt_r : r.Pairwise (fun a b => a.1 < b.1) :=
    (hr.and hdist_r).imp fun h => lt_of_le_of_ne h.1 h.2
  exact (List.eq_of_perm_of_sorted hperm hlt_l hlt_r).symm

/-- C9 counterexample: on the all-tied 17-column buffer (already weakly
wavelength-ascending, and longer than numpy quicksort's insertion-sort
cutoff), the reversed buffer is also a wavelength-ascending permutation of the
columns, yet differs from the input in row 1.  numpy's default argsort is
documented unstable, so the repository's code does not pin the tie order:
neither the no-op property on this already-ascending input nor unconditional
idempotence is a property of the program. -/
theorem C9_counterexample :
    M2LaserLogic.tied_buffer.Pairwise (fun a b => a.1 ≤ b.1) ∧
    M2LaserLogic.order_data_spec M2LaserLogic.tied_buffer M2LaserLogic.tied_buffer.reverse ∧
    M2LaserLogic.tied_buffer.reverse ≠ M2LaserLogic.tied_buffer := by
  refine ⟨by decide, ⟨(List.reverse_perm M2LaserLogic.tied_buffer).symm, by decide⟩, by decide⟩

/-- C9 amended: `order_data` returns a wavelength-ascending permutation of the
buffer's columns; restricted to buffers with pairwise-distinct wavelengths
(where the unstable tie order of numpy's argsort cannot matter) the claim
holds for every output the code may produce: an already-ascending buffer is
left unchanged, and applying `order_data` twice yields the same buffer as
applying it once. -/
theorem C9_order_data_distinct_keys :
    ∀ l r s : List (ℚ × ℚ),
      l.Pairwise (fun a b => a.1 ≠ b.1) →
      (l.Pairwise (fun a b => a.1 ≤ b.1) → M2LaserLogic.order_data_spec l r → r = l) ∧
      (M2LaserLogic.order_data_spec l r → M2LaserLogic.order_data_spec r s → s = r) := by
  intro l r s hdist
  constructor
  · intro hsorted hspec
    exact sorted_perm_eq_of_distinct_keys hdist hspec.1 hsorted hspec.2
  · intro hlr hrs
    have hdist_r : r.Pairwise (fun a b => a.1 ≠ b.1) :=
      (List.Perm.pairwise_iff (fun h => Ne.symm h) hlr.1).mp hdist
    exact sorted_perm_eq_of_distinct_keys hdist_r hrs.1 hlr.2 hrs.2

/-- C9 witness: a two-column buffer with distinct ascending wavelengths admits
only itself as a sort result, hence is left unchanged. -/
theorem C9_order_data_distinct_witness :
    M2LaserLogic.order_data_spec [((1 : ℚ), (5 : ℚ)), (2, 3)] [((1 : ℚ), (5 : ℚ)), (2, 3)] ∧
    ([((1 : ℚ), (5 : ℚ)), (2, 3)] : List (ℚ × ℚ)) = [((1 : ℚ), (5 : ℚ)), (2, 3)] :=
  ⟨⟨List.Perm.refl _, by decide⟩,
    (C9_order_data_distinct_keys [((1 : ℚ), (5 : ℚ)), (2, 3)] [((1 : ℚ), (5 : ℚ)), (2, 3)]
        [] (by decide)).1 (by decide) ⟨List.Perm.refl _, by decide⟩⟩

/-- C10: `write_waveform` with an empty analog-samples dict returns (-1, [])
before any waveform-length bound is consulted — for every total sample count
and either hardware option, including the in-bounds default length 80. -/
theorem C10_write_waveform_empty_analog :
    (∀ (total : ℕ) (opt01 : Bool),
      AWG7k.write_waveform_sanity [] total opt01 = some (-1, [])) ∧
    AWG7k.write_waveform_sanity [] 80 false = some (-1, []) ∧
    AWG7k.waveform_length_min ≤ 80 ∧ 80 ≤ AWG7k.waveform_length_max false := by
  refine ⟨fun total opt01 => ?_, ?_, by decide, by decide⟩
  · simp [AWG7k.write_waveform_sanity]
  · simp [AWG7k.write_waveform_sanity]

end Qudi
